import Mathlib

/-!
Verification of the authentication session core of the serverless-rust-template
repository: the web `AuthContext.tsx` token logic, the web `api` fetch helper,
the Android `MainActivity` callback handling, and the iOS `AuthManager`
token-exchange error path, embedded shallowly as executable Lean definitions.
-/

namespace Auth

/-- JSON values as produced by `JSON.parse`.  Numbers are modelled as integers
(JWT `exp` claims are integer Unix seconds); a payload with a fractional or
exponent-form number is treated as undecodable by this model.  Object fields
keep textual order; duplicate keys resolve to the last binding, as in JS. -/
inductive Json where
  | null
  | bool (b : Bool)
  | num (n : Int)
  | str (s : String)
  | arr (elems : List Json)
  | obj (fields : List (String × Json))

/-- Last-binding lookup in an object field list, matching the JS semantics of
`JSON.parse`, where a later duplicate key overwrites an earlier one. -/
def getFieldList (fields : List (String × Json)) (k : String) : Option Json :=
  match fields with
  | [] => none
  | (k', v) :: rest =>
    match getFieldList rest k with
    | some w => some w
    | none => if k' = k then some v else none

/-- Property access `payload.k`: a field lookup on objects, `undefined`
(modelled as `none`) on every other JSON value. -/
def Json.getField : Json → String → Option Json
  | .obj fs, k => getFieldList fs k
  | _, _ => none

/-- JS falsiness of a JSON value (`!payload` in the source): `null`, `false`,
`0` and the empty string are falsy; objects and arrays are always truthy. -/
def Json.isFalsy : Json → Bool
  | .null => true
  | .bool b => !b
  | .num n => n == 0
  | .str s => s == ""
  | _ => false

/-- Base64 value of one character of the standard alphabet (`atob` input after
the URL-safe replacement done by `parseJwt`). -/
def base64CharVal (c : Char) : Option Nat :=
  if 'A' ≤ c ∧ c ≤ 'Z' then some (c.toNat - 65)
  else if 'a' ≤ c ∧ c ≤ 'z' then some (c.toNat - 97 + 26)
  else if '0' ≤ c ∧ c ≤ '9' then some (c.toNat - 48 + 52)
  else if c = '+' then some 62
  else if c = '/' then some 63
  else none

/-- ASCII whitespace stripped by forgiving-base64 decoding (`atob`). -/
def isB64Ws (c : Char) : Bool :=
  c = ' ' ∨ c = '\t' ∨ c = '\n' ∨ c = '\r' ∨ c.toNat = 12

/-- Decoding of base64 quartets into bytes; a remainder of two or three
characters contributes one or two bytes, the excess bits being discarded, as
in the WHATWG forgiving-base64 algorithm implemented by `atob`. -/
def base64Groups : List Char → Option (List Nat)
  | [] => some []
  | [c1, c2] => do
    let v1 ← base64CharVal c1
    let v2 ← base64CharVal c2
    pure [v1 * 4 + v2 / 16]
  | [c1, c2, c3] => do
    let v1 ← base64CharVal c1
    let v2 ← base64CharVal c2
    let v3 ← base64CharVal c3
    pure [v1 * 4 + v2 / 16, (v2 % 16) * 16 + v3 / 4]
  | c1 :: c2 :: c3 :: c4 :: rest => do
    let v1 ← base64CharVal c1
    let v2 ← base64CharVal c2
    let v3 ← base64CharVal c3
    let v4 ← base64CharVal c4
    let bytes ← base64Groups rest
    pure ([v1 * 4 + v2 / 16, (v2 % 16) * 16 + v3 / 4, (v3 % 4) * 64 + v4] ++ bytes)
  | [_] => none

/-- Removal of up to two trailing padding characters, applied by `atob` only
when the input length is a multiple of four. -/
def stripB64Pad (cs : List Char) : List Char :=
  match cs.reverse with
  | '=' :: '=' :: rest => rest.reverse
  | '=' :: rest => rest.reverse
  | _ => cs

/-- The JS `atob` builtin (WHATWG forgiving-base64): strips ASCII whitespace,
strips padding when the length divides by four, rejects a remainder of one
or any character outside the standard alphabet, and yields bytes. -/
def atobJS (s : List Char) : Option (List Nat) :=
  let t := s.filter (fun c => !isB64Ws c)
  let t2 := if t.length % 4 = 0 then stripB64Pad t else t
  if t2.length % 4 = 1 then none else base64Groups t2

/-- UTF-8 continuation byte test. -/
def isUtf8Cont (b : Nat) : Bool := 0x80 ≤ b ∧ b < 0xC0

/-- UTF-8 decoding of a byte list, rejecting overlong forms, surrogates and
out-of-range sequences; this models the `decodeURIComponent`-of-percent-bytes
idiom in `parseJwt`, which throws (caught, yielding `null`) on invalid UTF-8. -/
def utf8Decode : List Nat → Option (List Char)
  | [] => some []
  | b1 :: rest =>
    if b1 < 0x80 then
      match utf8Decode rest with
      | some cs => some (Char.ofNat b1 :: cs)
      | none => none
    else if 0xC2 ≤ b1 ∧ b1 ≤ 0xDF then
      match rest with
      | b2 :: rest2 =>
        if isUtf8Cont b2 then
          match utf8Decode rest2 with
          | some cs => some (Char.ofNat ((b1 - 0xC0) * 64 + (b2 - 0x80)) :: cs)
          | none => none
        else none
      | _ => none
    else if 0xE0 ≤ b1 ∧ b1 ≤ 0xEF then
      match rest with
      | b2 :: b3 :: rest2 =>
        if isUtf8Cont b2 ∧ isUtf8Cont b3 ∧
            (b1 ≠ 0xE0 ∨ 0xA0 ≤ b2) ∧ (b1 ≠ 0xED ∨ b2 < 0xA0) then
          match utf8Decode rest2 with
          | some cs =>
            some (Char.ofNat ((b1 - 0xE0) * 4096 + (b2 - 0x80) * 64 + (b3 - 0x80)) :: cs)
          | none => none
        else none
      | _ => none
    else if 0xF0 ≤ b1 ∧ b1 ≤ 0xF4 then
      match rest with
      | b2 :: b3 :: b4 :: rest2 =>
        if isUtf8Cont b2 ∧ isUtf8Cont b3 ∧ isUtf8Cont b4 ∧
            (b1 ≠ 0xF0 ∨ 0x90 ≤ b2) ∧ (b1 ≠ 0xF4 ∨ b2 < 0x90) then
          match utf8Decode rest2 with
          | some cs =>
            some (Char.ofNat ((b1 - 0xF0) * 262144 + (b2 - 0x80) * 4096 +
              (b3 - 0x80) * 64 + (b4 - 0x80)) :: cs)
          | none => none
        else none
      | _ => none
    else none

/-- JSON whitespace accepted between tokens by `JSON.parse`. -/
def jsonWs (c : Char) : Bool := c = ' ' ∨ c = '\t' ∨ c = '\n' ∨ c = '\r'

/-- Skips JSON whitespace. -/
def skipWs (cs : List Char) : List Char := cs.dropWhile jsonWs

/-- Hexadecimal digit value, for string escapes of the form backslash-u. -/
def hexVal (c : Char) : Option Nat :=
  if '0' ≤ c ∧ c ≤ '9' then some (c.toNat - 48)
  else if 'a' ≤ c ∧ c ≤ 'f' then some (c.toNat - 97 + 10)
  else if 'A' ≤ c ∧ c ≤ 'F' then some (c.toNat - 65 + 10)
  else none

/-- Body of a JSON string after the opening quote, with an accumulator; the
usual single-character escapes and four-digit hex escapes are handled, the
latter rejected when they name a surrogate code point (modelling restriction:
JS strings can hold lone surrogates, Lean chars cannot). -/
def parseStringChars : List Char → List Char → Option (String × List Char)
  | acc, '"' :: rest => some (String.mk acc.reverse, rest)
  | acc, '\\' :: e :: rest =>
    match e with
    | '"' => parseStringChars ('"' :: acc) rest
    | '\\' => parseStringChars ('\\' :: acc) rest
    | '/' => parseStringChars ('/' :: acc) rest
    | 'b' => parseStringChars (Char.ofNat 8 :: acc) rest
    | 'f' => parseStringChars (Char.ofNat 12 :: acc) rest
    | 'n' => parseStringChars ('\n' :: acc) rest
    | 'r' => parseStringChars ('\r' :: acc) rest
    | 't' => parseStringChars ('\t' :: acc) rest
    | 'u' =>
      match rest with
      | h1 :: h2 :: h3 :: h4 :: rest2 =>
        match hexVal h1, hexVal h2, hexVal h3, hexVal h4 with
        | some v1, some v2, some v3, some v4 =>
          let code := v1 * 4096 + v2 * 256 + v3 * 16 + v4
          if 0xD800 ≤ code ∧ code < 0xE000 then none
          else parseStringChars (Char.ofNat code :: acc) rest2
        | _, _, _, _ => none
      | _ => none
    | _ => none
  | acc, c :: rest =>
    if c.toNat < 0x20 then none else parseStringChars (c :: acc) rest
  | _, [] => none

/-- Digit run converted to a natural number. -/
def digitsToNat (ds : List Char) : Nat :=
  List.foldl (fun a c => a * 10 + (c.toNat - 48)) 0 ds

/-- Validity of a JSON integer digit run: nonempty and without a redundant
leading zero. -/
def jsonDigitsOk (ds : List Char) : Bool :=
  match ds with
  | [] => false
  | ['0'] => true
  | '0' :: _ => false
  | _ => true

/-- Rejects a fractional or exponent continuation after an integer literal;
this model restricts JSON numbers to integers (see `Json`). -/
def numberEndsOk (cs : List Char) : Bool :=
  match cs with
  | '.' :: _ => false
  | 'e' :: _ => false
  | 'E' :: _ => false
  | _ => true

mutual

/-- One JSON value, fuel-indexed recursive descent mirroring `JSON.parse`. -/
def parseJsonValue : Nat → List Char → Option (Json × List Char)
  | 0, _ => none
  | Nat.succ fuel, cs =>
    match skipWs cs with
    | 'n' :: 'u' :: 'l' :: 'l' :: rest => some (Json.null, rest)
    | 't' :: 'r' :: 'u' :: 'e' :: rest => some (Json.bool true, rest)
    | 'f' :: 'a' :: 'l' :: 's' :: 'e' :: rest => some (Json.bool false, rest)
    | '"' :: rest =>
      match parseStringChars [] rest with
      | some (s, rest2) => some (Json.str s, rest2)
      | none => none
    | '[' :: rest =>
      (match skipWs rest with
       | ']' :: rest2 => some (Json.arr [], rest2)
       | _ =>
         match parseJsonElems fuel rest with
         | some (xs, rest2) => some (Json.arr xs, rest2)
         | none => none)
    | '\x7b' :: rest =>
      (match skipWs rest with
       | '\x7d' :: rest2 => some (Json.obj [], rest2)
       | _ =>
         match parseJsonFields fuel rest with
         | some (fs, rest2) => some (Json.obj fs, rest2)
         | none => none)
    | '-' :: rest =>
      (match rest.span Char.isDigit with
       | (ds, rest2) =>
         if jsonDigitsOk ds ∧ numberEndsOk rest2 then
           some (Json.num (-(Int.ofNat (digitsToNat ds))), rest2)
         else none)
    | c :: rest =>
      if c.isDigit then
        match (c :: rest).span Char.isDigit with
        | (ds, rest2) =>
          if jsonDigitsOk ds ∧ numberEndsOk rest2 then
            some (Json.num (Int.ofNat (digitsToNat ds)), rest2)
          else none
      else none
    | [] => none

/-- Comma-separated array elements up to the closing bracket. -/
def parseJsonElems : Nat → List Char → Option (List Json × List Char)
  | 0, _ => none
  | Nat.succ fuel, cs =>
    match parseJsonValue fuel cs with
    | some (v, rest) =>
      (match skipWs rest with
       | ',' :: rest2 =>
         (match parseJsonElems fuel rest2 with
          | some (xs, rest3) => some (v :: xs, rest3)
          | none => none)
       | ']' :: rest2 => some ([v], rest2)
       | _ => none)
    | none => none

/-- Comma-separated object members up to the closing brace. -/
def parseJsonFields : Nat → List Char → Option (List (String × Json) × List Char)
  | 0, _ => none
  | Nat.succ fuel, cs =>
    match skipWs cs with
    | '"' :: rest =>
      (match parseStringChars [] rest with
       | some (k, rest2) =>
         (match skipWs rest2 with
          | ':' :: rest3 =>
            (match parseJsonValue fuel rest3 with
             | some (v, rest4) =>
               (match skipWs rest4 with
                | ',' :: rest5 =>
                  (match parseJsonFields fuel rest5 with
                   | some (fs, rest6) => some ((k, v) :: fs, rest6)
                   | none => none)
                | '\x7d' :: rest5 => some ([(k, v)], rest5)
                | _ => none)
             | none => none)
          | _ => none)
       | none => none)
    | _ => none

end

/-- The `JSON.parse` builtin on a character list: one value, then only
whitespace may remain. -/
def jsonParse (cs : List Char) : Option Json :=
  match parseJsonValue (2 * cs.length + 2) cs with
  | some (v, rest) => if skipWs rest = [] then some v else none
  | none => none

/-- The JS `split` on a dot, which always yields at least one segment (the
split of the empty string is a single empty segment). -/
def splitOnDot : List Char → List Char → List (List Char)
  | acc, [] => [acc.reverse]
  | acc, '.' :: rest => acc.reverse :: splitOnDot [] rest
  | acc, c :: rest => splitOnDot (c :: acc) rest

/-- URL-safe alphabet replacement done by `parseJwt` before calling `atob`. -/
def base64UrlToStd (c : Char) : Char :=
  if c = '-' then '+' else if c = '_' then '/' else c

/-- The web `parseJwt` (frontend `AuthContext.tsx`): middle segment of the
compact token, URL-safe replacement, `atob`, UTF-8 decoding of the resulting
bytes, then `JSON.parse`; any failure is caught and yields `none`. -/
def parseJwt (token : String) : Option Json :=
  match (splitOnDot [] token.data)[1]? with
  | none => none
  | some seg =>
    match atobJS (seg.map base64UrlToStd) with
    | none => none
    | some bytes =>
      match utf8Decode bytes with
      | none => none
      | some chars => jsonParse chars

/-- The web `isTokenExpired` (frontend `AuthContext.tsx`): `true` when the
payload fails to decode, is falsy, or its `exp` member is not a number;
otherwise the comparison `Date.now() >= exp * 1000`, with the current time
passed in as `now` milliseconds. -/
def isTokenExpired (token : String) (now : Int) : Bool :=
  match parseJwt token with
  | none => true
  | some payload =>
    if payload.isFalsy then true
    else
      match payload.getField "exp" with
      | some (Json.num e) => decide (now ≥ e * 1000)
      | _ => true

/-- The presentation-facing user projection built by `getUserFromToken`; each
field holds the raw JSON value of the claim, `none` when the claim is absent
(JS `undefined`). -/
structure User where
  id : Option Json
  email : Option Json
  name : Option Json

/-- The web `getUserFromToken` (frontend `AuthContext.tsx`): `none` when the
payload fails to decode or is falsy, otherwise a `User` projecting the `sub`,
`email` and `name` members (absent members stay `undefined`). -/
def getUserFromToken (idToken : String) : Option User :=
  match parseJwt idToken with
  | none => none
  | some payload =>
    if payload.isFalsy then none
    else
      some { id := payload.getField "sub", email := payload.getField "email",
             name := payload.getField "name" }

/-- The three-key localStorage layout used by the web auth code:
`auth_access_token`, `auth_id_token`, `auth_refresh_token`; `none` models an
absent key (`getItem` returning `null`). -/
structure Store where
  access : Option String
  id : Option String
  refresh : Option String
deriving DecidableEq

/-- The store with all three keys removed. -/
def clearedStore : Store := { access := none, id := none, refresh := none }

/-- The web auth configuration record (`AUTH_CONFIG`). -/
structure AuthConfig where
  userPoolId : String
  clientId : String
  domain : String
  redirectUri : String
  logoutUri : String

/-- The web `isAuthConfigured`: all of pool id, client id and domain are
truthy, i.e. nonempty. -/
def isAuthConfigured (cfg : AuthConfig) : Bool :=
  cfg.userPoolId != "" && cfg.clientId != "" && cfg.domain != ""

/-- The initialisation effect of `AuthProvider` (frontend `AuthContext.tsx`):
when configured, reads the id and access tokens; if both are truthy and the
access token is unexpired it derives the user from the id token, otherwise it
removes all three keys; the returned option is the resulting user state
(`none` meaning no session). -/
def initLoad (cfg : AuthConfig) (st : Store) (now : Int) : Store × Option User :=
  if !isAuthConfigured cfg then (st, none)
  else
    match st.id, st.access with
    | some idTok, some accTok =>
      if idTok != "" && accTok != "" && !isTokenExpired accTok now then
        (st, getUserFromToken idTok)
      else (clearedStore, none)
    | _, _ => (clearedStore, none)

/-- The parsed JSON body of a successful token-endpoint response as the web
callback consumes it (`tokens.access_token`, `tokens.id_token`, optional
`tokens.refresh_token`). -/
structure TokenResponseJson where
  access_token : String
  id_token : String
  refresh_token : Option String
deriving DecidableEq

/-- The token writes of the web callback success path: unconditional writes of
the access and id keys, and a write of the refresh key only when the response
carries a truthy `refresh_token`. -/
def saveTokens (st : Store) (t : TokenResponseJson) : Store :=
  { access := some t.access_token,
    id := some t.id_token,
    refresh :=
      match t.refresh_token with
      | some r => if r != "" then some r else st.refresh
      | none => st.refresh }

/-- Console output of the web auth code, with the arguments each call site
actually passes: the exchange-failure log carries only the response text. -/
inductive LogEntry where
  | warnNotConfigured
  | errorExchangeFailed (body : String)
  | errorCallback
deriving DecidableEq

/-- Outcome of the token-endpoint `fetch` as the web callback observes it. -/
inductive ExchangeResponse where
  | success (tokens : TokenResponseJson)
  | okBadJson
  | failure (status : Nat) (body : String)
  | networkError

/-- Observable result of the web callback effect: the storage state, the user
state, the console log, and whether the URL was cleaned up. -/
structure CallbackOutcome where
  store : Store
  user : Option User
  log : List LogEntry
  urlCleaned : Bool

/-- The web callback effect of `AuthProvider` (frontend `AuthContext.tsx`):
when configured, on a truthy `code` query parameter at the `/callback` path it
exchanges the code; on `response.ok` it saves the tokens and derives the user,
on HTTP failure it logs the response text, and on a thrown error (network
failure or malformed JSON body) it logs a callback error; in every failure
case the store and user are left untouched. -/
def handleCallback (cfg : AuthConfig) (st : Store) (user0 : Option User)
    (urlCode : Option String) (onCallbackPath : Bool) (resp : ExchangeResponse) :
    CallbackOutcome :=
  if !isAuthConfigured cfg then
    { store := st, user := user0, log := [], urlCleaned := false }
  else
    match urlCode with
    | none => { store := st, user := user0, log := [], urlCleaned := false }
    | some code =>
      if code != "" && onCallbackPath then
        match resp with
        | .success tokens =>
          { store := saveTokens st tokens,
            user := getUserFromToken tokens.id_token,
            log := [], urlCleaned := true }
        | .okBadJson =>
          { store := st, user := user0, log := [.errorCallback], urlCleaned := false }
        | .failure _ body =>
          { store := st, user := user0, log := [.errorExchangeFailed body],
            urlCleaned := false }
        | .networkError =>
          { store := st, user := user0, log := [.errorCallback], urlCleaned := false }
      else { store := st, user := user0, log := [], urlCleaned := false }

/-- The web `getAccessToken` callback (frontend `AuthContext.tsx`): the stored
access token when it is truthy and unexpired, otherwise `null`. -/
def getAccessToken (st : Store) (now : Int) : Option String :=
  match st.access with
  | none => none
  | some tok => if tok != "" && !isTokenExpired tok now then some tok else none

/-- A browser navigation target, kept as endpoint plus query parameters in the
order the `URL` object receives them. -/
structure NavTarget where
  base : String
  params : List (String × String)
deriving DecidableEq

/-- Observable result of the web `login` and `logout` callbacks. -/
structure SessionOpOutcome where
  store : Store
  user : Option User
  nav : Option NavTarget
  log : List LogEntry

/-- The authorization URL built by the web `login`. -/
def loginNav (cfg : AuthConfig) : NavTarget :=
  { base := cfg.domain ++ "/login",
    params := [("client_id", cfg.clientId), ("response_type", "code"),
               ("scope", "email openid profile"), ("redirect_uri", cfg.redirectUri)] }

/-- The web `login` callback (frontend `AuthContext.tsx`): warns and returns
without touching anything when not configured; otherwise navigates to the
provider login URL, leaving store and user untouched. -/
def webLogin (cfg : AuthConfig) (st : Store) (user0 : Option User) : SessionOpOutcome :=
  if !isAuthConfigured cfg then
    { store := st, user := user0, nav := none, log := [.warnNotConfigured] }
  else
    { store := st, user := user0, nav := some (loginNav cfg), log := [] }

/-- The provider logout URL built by the web `logout`. -/
def logoutNav (cfg : AuthConfig) : NavTarget :=
  { base := cfg.domain ++ "/logout",
    params := [("client_id", cfg.clientId), ("logout_uri", cfg.logoutUri)] }

/-- The web `logout` callback (frontend `AuthContext.tsx`): removes all three
keys and nulls the user unconditionally, then — only when configured —
navigates to the provider logout endpoint. -/
def webLogout (cfg : AuthConfig) (_st : Store) (_user0 : Option User) : SessionOpOutcome :=
  if !isAuthConfigured cfg then
    { store := clearedStore, user := none, nav := none, log := [] }
  else
    { store := clearedStore, user := none, nav := some (logoutNav cfg), log := [] }

/-- The latin-1 reading of `atob` output: each byte is one character, with no
UTF-8 decoding (the api helper feeds `atob` output straight to `JSON.parse`). -/
def latin1Decode (bs : List Nat) : List Char := bs.map Char.ofNat

/-- The payload parse of the api helper `getAccessToken` (web `api` module):
`JSON.parse(atob(token.split(".")[1]))` — no URL-safe alphabet replacement and
no UTF-8 decoding; a thrown error is caught and yields `none`. -/
def apiParseJwtPayload (token : String) : Option Json :=
  match (splitOnDot [] token.data)[1]? with
  | none => none
  | some seg =>
    match atobJS seg with
    | none => none
    | some bytes => jsonParse (latin1Decode bytes)

/-- JS numeric coercion of the `exp` member as used by `payload.exp * 1000` in
the api helper: numbers stand, `null` is 0, booleans are 0 or 1, digit strings
coerce, and everything else — including an absent member — is NaN, modelled as
`none` (arrays and objects are approximated as NaN; JS would coerce a
one-element numeric array, a case no stored payload exhibits). -/
def jsToNumberInt : Option Json → Option Int
  | some (.num n) => some n
  | some .null => some 0
  | some (.bool b) => some (if b then 1 else 0)
  | some (.str s) =>
    (match s.data.dropWhile jsonWs |>.reverse.dropWhile jsonWs |>.reverse with
     | [] => some 0
     | '-' :: ds =>
       if ds ≠ [] ∧ ds.all Char.isDigit then some (-(Int.ofNat (digitsToNat ds)))
       else none
     | '+' :: ds =>
       if ds ≠ [] ∧ ds.all Char.isDigit then some (Int.ofNat (digitsToNat ds))
       else none
     | ds => if ds.all Char.isDigit then some (Int.ofNat (digitsToNat ds)) else none)
  | _ => none

/-- The api helper `getAccessToken` (web `api` module): returns `null` for an
absent or falsy token; on a decodable payload it removes the access key and
returns `null` only when `Date.now() >= payload.exp * 1000` evaluates to true,
so a NaN product — in particular a missing `exp` — keeps the token; a parse
error returns `null` without removing anything. -/
def apiGetAccessToken (st : Store) (now : Int) : Store × Option String :=
  match st.access with
  | none => (st, none)
  | some tok =>
    if tok == "" then (st, none)
    else
      match apiParseJwtPayload tok with
      | none => (st, none)
      | some payload =>
        match jsToNumberInt (payload.getField "exp") with
        | none => (st, some tok)
        | some e =>
          if now ≥ e * 1000 then ({ st with access := none }, none)
          else (st, some tok)

/-- A deep-link URI as the Android `handleIntent` inspects it: scheme, host
and the optional `code` query parameter. -/
structure AndroidUri where
  scheme : String
  host : String
  code : Option String
deriving DecidableEq

/-- Events observable by the Android activity: an intent delivery (`onCreate`
or `onNewIntent`, whose data may be absent) and the completion of a launched
exchange coroutine. -/
inductive AndroidEvent where
  | intentDelivered (uri : Option AndroidUri)
  | exchangeCompleted
deriving DecidableEq

/-- Abstract state of the Android `MainActivity`: the loading flag, the number
of exchange coroutines launched and not yet completed, and the cumulative
number of POSTs issued to the token endpoint. -/
structure AndroidState where
  isLoading : Bool
  inFlightExchanges : Nat
  tokenPosts : Nat
deriving DecidableEq

/-- One step of the Android activity (mobile `MainActivity`, `handleIntent`
and `exchangeCodeForTokens`): an intent whose data is a `myapp://auth` URI
carrying a non-null `code` unconditionally calls `exchangeCodeForTokens`,
which sets the loading flag and launches a coroutine that POSTs the token
endpoint — no flag or guard is consulted before launching. -/
def androidStep (st : AndroidState) : AndroidEvent → AndroidState
  | .intentDelivered uri =>
    match uri with
    | some u =>
      if u.scheme == "myapp" && u.host == "auth" then
        match u.code with
        | some _ =>
          { isLoading := true,
            inFlightExchanges := st.inFlightExchanges + 1,
            tokenPosts := st.tokenPosts + 1 }
        | none => st
      else st
    | none => st
  | .exchangeCompleted =>
    { st with isLoading := false, inFlightExchanges := st.inFlightExchanges - 1 }

/-- The Android activity run over a list of events. -/
def androidRun (st : AndroidState) (events : List AndroidEvent) : AndroidState :=
  events.foldl androidStep st

/-- The Android activity's initial state. -/
def androidInit : AndroidState :=
  { isLoading := false, inFlightExchanges := 0, tokenPosts := 0 }

/-- Abstract state of the iOS `AuthManager`: the tokens handed to the core,
the published authentication flag, error message and loading flag. -/
structure IosState where
  tokens : Option TokenResponseJson
  isAuthenticated : Bool
  errorMessage : Option String
  isLoading : Bool
deriving DecidableEq

/-- Outcome of the iOS token-endpoint request as `exchangeCodeForTokens`
observes it: a 200 with a decodable body, a 200 whose body fails to decode
(carrying the thrown error's description), a non-200 status with its body, or
a transport error. -/
inductive IosResponse where
  | ok (tokens : TokenResponseJson)
  | okBadBody (desc : String)
  | httpErr (status : Nat) (body : String)
  | transportErr (desc : String)

/-- The error message the iOS client publishes for a non-200 exchange: it
interpolates the HTTP status and not the response body (the body is only
printed to the console). -/
def iosFailureMessage (status : Nat) : String :=
  "Token exchange failed (HTTP " ++ toString status ++ ")"

/-- The iOS `exchangeCodeForTokens` (mobile `AuthManager.swift`) outcome: on a
200 with decodable body it stores the tokens and authenticates; on a non-200
it sets `errorMessage` from the status, leaving stored tokens untouched; on a
decode or transport error it sets `errorMessage` from the error description. -/
def iosExchangeCode (st : IosState) (resp : IosResponse) : IosState :=
  match resp with
  | .ok tokens =>
    { tokens := some tokens, isAuthenticated := true, errorMessage := none,
      isLoading := false }
  | .okBadBody desc =>
    { st with errorMessage := some ("Token exchange error: " ++ desc),
              isLoading := false }
  | .httpErr status _ =>
    { st with errorMessage := some (iosFailureMessage status), isLoading := false }
  | .transportErr desc =>
    { st with errorMessage := some ("Token exchange error: " ++ desc),
              isLoading := false }

/-- A configured web instance, used by concrete instantiations. -/
def demoCfg : AuthConfig :=
  { userPoolId := "pool", clientId := "client", domain := "idp.example",
    redirectUri := "app.example/callback", logoutUri := "app.example" }

/-- A compact token whose payload decodes to the object with `exp` equal 1. -/
def expOneToken : String := "x.eyJleHAiOjF9.y"

/-- A compact token whose payload decodes to the object with `exp` equal
99999999999, far in the future at any realistic clock. -/
def futureExpToken : String := "x.eyJleHAiOjk5OTk5OTk5OTk5fQ.y"

/-- A compact token whose payload decodes to the empty object: no `exp`
member and no `sub` member. -/
def emptyPayloadToken : String := "x.e30.y"

/-- The empty string never decodes, so the web check treats it as expired for
every clock value. -/
theorem isTokenExpired_empty (now : Int) : isTokenExpired "" now = true := rfl

/-- Shared reduction of the web callback on an HTTP failure response: the
store and user pass through untouched and the response text is logged. -/
theorem handleCallback_failure_eq (cfg : AuthConfig) (st : Store)
    (user0 : Option User) (code : String) (status : Nat) (body : String)
    (hcfg : isAuthConfigured cfg = true) (hcode : code ≠ "") :
    handleCallback cfg st user0 (some code) true (.failure status body) =
      { store := st, user := user0, log := [LogEntry.errorExchangeFailed body],
        urlCleaned := false } := by
  unfold handleCallback
  rw [hcfg]
  simp [hcode]

/-- C1: the web expiry check `isTokenExpired` returns true exactly when the
decoded payload's `exp` member is missing or non-numeric — in particular
whenever the payload is undecodable — or when `exp * 1000 ≤ now`. -/
theorem C1_isTokenExpired_iff (token : String) (now : Int) :
    isTokenExpired token now = true ↔
      (match (parseJwt token).bind (fun j => j.getField "exp") with
       | some (Json.num e) => e * 1000 ≤ now
       | _ => True) := by
  unfold isTokenExpired
  cases hp : parseJwt token with
  | none => simp
  | some j =>
    cases j with
    | null => simp [Json.isFalsy, Json.getField]
    | bool b => cases b <;> simp [Json.isFalsy, Json.getField]
    | num n =>
      simp only [Json.isFalsy, Json.getField, Option.bind_some]
      split <;> simp
    | str s =>
      simp only [Json.isFalsy, Json.getField, Option.bind_some]
      split <;> simp
    | arr xs => simp [Json.isFalsy, Json.getField]
    | obj fs =>
      simp only [Json.isFalsy, Json.getField, Option.bind_some, Bool.false_eq_true,
        if_false]
      cases hf : getFieldList fs "exp" with
      | none => simp [hf]
      | some v => cases v <;> simp [hf, ge_iff_le]

/-- C2: when configured, a load that finds the access token absent or expired
per the §4.2 check clears all three keys and reports no session, and a second
load over the cleared store returns the same no-session result. -/
theorem C2_load_clears_invalid (cfg : AuthConfig) (st : Store) (now : Int)
    (hcfg : isAuthConfigured cfg = true)
    (hbad : st.access = none ∨ ∃ a, st.access = some a ∧ isTokenExpired a now = true) :
    initLoad cfg st now = (clearedStore, none) ∧
    initLoad cfg clearedStore now = (clearedStore, none) := by
  constructor
  · unfold initLoad
    rw [hcfg]
    rcases hbad with h | ⟨a, ha, hexp⟩
    · cases hid : st.id <;> simp [h, hid]
    · cases hid : st.id with
      | none => simp [ha, hid]
      | some idTok => simp [ha, hid, hexp]
  · unfold initLoad
    rw [hcfg]
    simp [clearedStore]

/-- C2 witness: a store holding an access token with `exp` equal 1 at clock
1000 milliseconds is expired, is cleared, and a second load agrees. -/
theorem C2_load_clears_invalid_witness :
    initLoad demoCfg { access := some expOneToken, id := some "idtok", refresh := some "r" }
        1000 = (clearedStore, none) ∧
    initLoad demoCfg clearedStore 1000 = (clearedStore, none) :=
  C2_load_clears_invalid demoCfg _ 1000 rfl (Or.inr ⟨expOneToken, rfl, rfl⟩)

/-- The duplicate-prone callback URI of the C3 scenario. -/
def c3CallbackUri : AndroidUri :=
  { scheme := "myapp", host := "auth", code := some "abc123" }

/-- The delivery event of the C3 scenario. -/
def c3DupEvent : AndroidEvent := .intentDelivered (some c3CallbackUri)

/-- C3: the Android activity has no single-flight guard — after one callback
delivery an exchange is in flight, and a duplicate delivery of the same code
while that exchange is still in flight issues a second token-endpoint POST,
where the claim requires exactly one. -/
theorem C3_android_double_post :
    (androidRun androidInit [c3DupEvent]).inFlightExchanges = 1 ∧
    (androidRun androidInit [c3DupEvent, c3DupEvent]).tokenPosts = 2 := ⟨rfl, rfl⟩

/-- C4: a failed exchange (HTTP non-success, e.g. status 400) leaves every
storage key exactly as it was, ends with no user (unauthenticated), and the
handler returns normally, only logging the failure — it does not crash. -/
theorem C4_exchange_failure_state (cfg : AuthConfig) (st : Store)
    (code : String) (status : Nat) (body : String)
    (hcfg : isAuthConfigured cfg = true) (hcode : code ≠ "") :
    handleCallback cfg st none (some code) true (.failure status body) =
      { store := st, user := none, log := [LogEntry.errorExchangeFailed body],
        urlCleaned := false } :=
  handleCallback_failure_eq cfg st none code status body hcfg hcode

/-- C4 witness: the concrete scenario with HTTP 400. -/
theorem C4_exchange_failure_state_witness :
    handleCallback demoCfg { access := some "keepA", id := some "keepI", refresh := none }
        none (some "abc123") true (.failure 400 "invalid_grant") =
      { store := { access := some "keepA", id := some "keepI", refresh := none },
        user := none, log := [LogEntry.errorExchangeFailed "invalid_grant"],
        urlCleaned := false } :=
  C4_exchange_failure_state demoCfg _ "abc123" 400 "invalid_grant" rfl (by decide)

/-- C5 counterexample: the web controller's entire observable outcome for a
failed exchange is identical for two different HTTP statuses, so nothing the
controller surfaces carries the response status, contrary to the claim that a
`TokenExchangeError` carrying status and body reaches the caller. -/
theorem C5_status_not_observable :
    handleCallback demoCfg clearedStore none (some "authcode") true
        (.failure 400 "bad_request") =
      handleCallback demoCfg clearedStore none (some "authcode") true
        (.failure 401 "bad_request") ∧
    (400 : Nat) ≠ 401 := ⟨rfl, by decide⟩

/-- C5 amended: on HTTP non-success the web controller leaves store and user
untouched and surfaces only a console log carrying the response body — the
status is not part of any observable output and no error state is exposed to
consumers — while the iOS client publishes an error message carrying the HTTP
status (the body is only printed) and leaves its stored tokens untouched. -/
theorem C5_failure_surfacing (cfg : AuthConfig) (st : Store) (code : String)
    (status : Nat) (body : String) (ios : IosState)
    (hcfg : isAuthConfigured cfg = true) (hcode : code ≠ "") :
    (handleCallback cfg st none (some code) true (.failure status body)).log =
        [LogEntry.errorExchangeFailed body] ∧
    (handleCallback cfg st none (some code) true (.failure status body)).store = st ∧
    (iosExchangeCode ios (.httpErr status body)).errorMessage =
        some ("Token exchange failed (HTTP " ++ toString status ++ ")") ∧
    (iosExchangeCode ios (.httpErr status body)).tokens = ios.tokens := by
  rw [handleCallback_failure_eq cfg st none code status body hcfg hcode]
  exact ⟨rfl, rfl, rfl, rfl⟩

/-- The iOS manager state upon entering the exchange, for concrete runs. -/
def iosStart : IosState :=
  { tokens := none, isAuthenticated := false, errorMessage := none, isLoading := true }

/-- C5 amended witness at the concrete HTTP 400 scenario. -/
theorem C5_failure_surfacing_witness :
    (handleCallback demoCfg clearedStore none (some "abc") true
        (.failure 400 "redirect_mismatch")).log =
      [LogEntry.errorExchangeFailed "redirect_mismatch"] ∧
    (handleCallback demoCfg clearedStore none (some "abc") true
        (.failure 400 "redirect_mismatch")).store = clearedStore ∧
    (iosExchangeCode iosStart (.httpErr 400 "redirect_mismatch")).errorMessage =
      some ("Token exchange failed (HTTP " ++ toString (400 : Nat) ++ ")") ∧
    (iosExchangeCode iosStart (.httpErr 400 "redirect_mismatch")).tokens =
      iosStart.tokens :=
  C5_failure_surfacing demoCfg clearedStore "abc" 400 "redirect_mismatch" iosStart
    rfl (by decide)

/-- C6 counterexample: the api helper returns a stored access token whose
payload decodes to an object with no `exp` member, at an arbitrarily late
clock, where the claim requires it to return none. -/
theorem C6_api_token_without_exp_kept :
    apiParseJwtPayload emptyPayloadToken = some (Json.obj []) ∧
    apiGetAccessToken { access := some emptyPayloadToken, id := none, refresh := none }
        99999999999999 =
      ({ access := some emptyPayloadToken, id := none, refresh := none },
        some emptyPayloadToken) := ⟨rfl, rfl⟩

/-- C6 amended: the AuthContext `getAccessToken` returns the access token iff
it is present and unexpired per the §4.2 check; the api helper instead keeps
and returns a stored token whose payload decodes but lacks an `exp` member,
because the NaN comparison is false. -/
theorem C6_current_access_token (st : Store) (now : Int) :
    (∀ tok, getAccessToken st now = some tok ↔
        st.access = some tok ∧ isTokenExpired tok now = false) ∧
    (∀ tok payload, st.access = some tok → tok ≠ "" →
        apiParseJwtPayload tok = some payload → payload.getField "exp" = none →
        apiGetAccessToken st now = (st, some tok)) := by
  constructor
  · intro tok
    cases hacc : st.access with
    | none => simp [getAccessToken, hacc]
    | some t =>
      simp only [getAccessToken, hacc]
      by_cases ht : t = ""
      · subst ht
        constructor
        · intro h
          simp at h
        · rintro ⟨h1, h2⟩
          obtain rfl : ("" : String) = tok := Option.some.inj h1
          rw [isTokenExpired_empty] at h2
          exact absurd h2 (by decide)
      · by_cases hexp : isTokenExpired t now = true
        · simp only [hexp, Bool.not_true, Bool.and_false, Bool.false_eq_true, if_false]
          constructor
          · intro h
            simp at h
          · rintro ⟨h1, h2⟩
            obtain rfl : t = tok := Option.some.inj h1
            rw [hexp] at h2
            exact absurd h2 (by decide)
        · have hexp' : isTokenExpired t now = false := by
            cases h : isTokenExpired t now
            · rfl
            · exact absurd h hexp
          have hbt : (t != "") = true := by
            simp [bne_iff_ne, ht]
          simp only [hbt, hexp', Bool.not_false, Bool.and_true, Bool.true_and, if_true]
          constructor
          · intro h
            obtain rfl : t = tok := Option.some.inj h
            exact ⟨rfl, hexp'⟩
          · rintro ⟨h1, _⟩
            exact h1
  · intro tok payload h1 h2 h3 h4
    have hbt : (tok == "") = false := by
      simp [h2]
    simp [apiGetAccessToken, h1, hbt, h3, h4, jsToNumberInt]

/-- A store holding an unexpired access token. -/
def c6StoreFuture : Store :=
  { access := some futureExpToken, id := some "i", refresh := none }

/-- A store holding an access token whose payload has no `exp` member. -/
def c6StoreNoExp : Store :=
  { access := some emptyPayloadToken, id := some "i", refresh := none }

/-- C6 witness: the AuthContext helper yields an unexpired stored token, and
the api helper keeps a token without `exp` over a populated store. -/
theorem C6_current_access_token_witness :
    getAccessToken c6StoreFuture 0 = some futureExpToken ∧
    apiGetAccessToken c6StoreNoExp 5 = (c6StoreNoExp, some emptyPayloadToken) :=
  ⟨((C6_current_access_token c6StoreFuture 0).1 futureExpToken).mpr ⟨rfl, rfl⟩,
    (C6_current_access_token c6StoreNoExp 5).2 emptyPayloadToken (Json.obj [])
      rfl (by decide) rfl rfl⟩

/-- The token set of the C7 scenario: unexpired access token, decodable id
token, no refresh token in the exchange response. -/
def c7Saved : TokenResponseJson :=
  { access_token := futureExpToken, id_token := emptyPayloadToken, refresh_token := none }

/-- A prior store still holding a refresh token from an earlier session. -/
def c7Prior : Store := { access := none, id := none, refresh := some "old-refresh" }

/-- C7 counterexample: saving a token set that has no refresh token over a
store holding an earlier refresh token, then loading while the access token
is unexpired, reads back a refresh value unequal to the saved one — the
loaded set is not equal to the saved set. -/
theorem C7_refresh_not_read_back :
    initLoad demoCfg (saveTokens c7Prior c7Saved) 0 =
      (saveTokens c7Prior c7Saved, some { id := none, email := none, name := none }) ∧
    (saveTokens c7Prior c7Saved).refresh = some "old-refresh" ∧
    c7Saved.refresh_token = none := ⟨rfl, rfl, rfl⟩

/-- C7 amended: after a save, an immediate load does not clear and reads back
exactly the saved access and id tokens, provided the access token is
unexpired and the id token nonempty; the refresh value reads back equal
whenever the saved set carries a nonempty refresh token, while a saved set
without one leaves the prior refresh value in place. -/
theorem C7_save_then_load (cfg : AuthConfig) (st : Store) (now : Int)
    (ts : TokenResponseJson) (hcfg : isAuthConfigured cfg = true)
    (hid : ts.id_token ≠ "") (hacc : isTokenExpired ts.access_token now = false) :
    initLoad cfg (saveTokens st ts) now =
      (saveTokens st ts, getUserFromToken ts.id_token) ∧
    (saveTokens st ts).access = some ts.access_token ∧
    (saveTokens st ts).id = some ts.id_token ∧
    (∀ r, ts.refresh_token = some r → r ≠ "" → (saveTokens st ts).refresh = some r) ∧
    (ts.refresh_token = none → (saveTokens st ts).refresh = st.refresh) := by
  have hane : ts.access_token ≠ "" := by
    intro h
    rw [h, isTokenExpired_empty] at hacc
    exact absurd hacc (by decide)
  refine ⟨?_, rfl, rfl, ?_, ?_⟩
  · unfold initLoad saveTokens
    rw [hcfg]
    simp [bne_iff_ne, hid, hane, hacc]
  · intro r hr hne
    unfold saveTokens
    simp [hr, bne_iff_ne, hne]
  · intro hr
    unfold saveTokens
    simp [hr]

/-- C7 amended witness over the concrete prior store and saved set. -/
theorem C7_save_then_load_witness :
    initLoad demoCfg (saveTokens clearedStore c7Saved) 0 =
      (saveTokens clearedStore c7Saved, getUserFromToken emptyPayloadToken) ∧
    (saveTokens clearedStore c7Saved).access = some futureExpToken ∧
    (saveTokens clearedStore c7Saved).id = some emptyPayloadToken ∧
    (saveTokens clearedStore c7Saved).refresh = none := by
  have h := C7_save_then_load demoCfg clearedStore 0 c7Saved rfl (by decide) rfl
  exact ⟨h.1, h.2.1, h.2.2.1, h.2.2.2.2 rfl⟩

/-- A configuration with the pool id, client id and domain all empty. -/
def unconfiguredCfg : AuthConfig :=
  { userPoolId := "", clientId := "", domain := "", redirectUri := "r", logoutUri := "l" }

/-- A populated store, to observe what logout does to it. -/
def c8Store : Store := { access := some "a", id := some "b", refresh := some "c" }

/-- C8 counterexample: with an unconfigured instance, logout still clears the
three storage keys — it is not a no-op on stored session state as the claim
requires of every session operation. -/
theorem C8_logout_clears_when_unconfigured :
    isAuthConfigured unconfiguredCfg = false ∧
    (webLogout unconfiguredCfg c8Store none).store = clearedStore ∧
    c8Store ≠ clearedStore := ⟨rfl, rfl, by decide⟩

/-- C8 amended: when unconfigured, login is a no-op that only warns — no
navigation and no state change — while logout always clears the three keys
and the in-memory user, skipping only the provider logout navigation. -/
theorem C8_unconfigured_ops (cfg : AuthConfig) (st : Store) (u : Option User)
    (h : isAuthConfigured cfg = false) :
    webLogin cfg st u =
      { store := st, user := u, nav := none, log := [LogEntry.warnNotConfigured] } ∧
    webLogout cfg st u =
      { store := clearedStore, user := none, nav := none, log := [] } := by
  unfold webLogin webLogout
  rw [h]
  exact ⟨rfl, rfl⟩

/-- C8 amended witness over the concrete unconfigured instance. -/
theorem C8_unconfigured_ops_witness :
    webLogin unconfiguredCfg c8Store none =
      { store := c8Store, user := none, nav := none,
        log := [LogEntry.warnNotConfigured] } ∧
    webLogout unconfiguredCfg c8Store none =
      { store := clearedStore, user := none, nav := none, log := [] } :=
  C8_unconfigured_ops unconfiguredCfg c8Store none rfl

/-- A prior store from an earlier session, all three keys set. -/
def c9Prior : Store := { access := some "oldA", id := some "oldI", refresh := some "old-r" }

/-- A re-login exchange response that carries no refresh token. -/
def c9New : TokenResponseJson :=
  { access_token := "newA", id_token := "newI", refresh_token := none }

/-- C9 counterexample: after a re-login save whose response has no refresh
token, the refresh key still holds the earlier session's value, where the
claim requires it to hold no value from the earlier session. -/
theorem C9_stale_refresh_persists :
    (saveTokens c9Prior c9New).refresh = some "old-r" ∧
    c9New.refresh_token = none := ⟨rfl, rfl⟩

/-- C9 amended: a re-login save overwrites the access and id keys with the new
response; the refresh key is overwritten only when the new response carries a
nonempty refresh token — when it carries none, the earlier session's refresh
value persists. -/
theorem C9_relogin_overwrite (st : Store) (t : TokenResponseJson) :
    (saveTokens st t).access = some t.access_token ∧
    (saveTokens st t).id = some t.id_token ∧
    (∀ r, t.refresh_token = some r → r ≠ "" → (saveTokens st t).refresh = some r) ∧
    (t.refresh_token = none → (saveTokens st t).refresh = st.refresh) := by
  refine ⟨rfl, rfl, ?_, ?_⟩
  · intro r hr hne
    unfold saveTokens
    simp [hr, bne_iff_ne, hne]
  · intro hr
    unfold saveTokens
    simp [hr]

/-- A re-login exchange response carrying a fresh refresh token. -/
def c9NewWithRefresh : TokenResponseJson :=
  { access_token := "newA2", id_token := "newI2", refresh_token := some "newR2" }

/-- C9 amended witness: the overwrite behaviour at two concrete responses. -/
theorem C9_relogin_overwrite_witness :
    (saveTokens c9Prior c9NewWithRefresh).access = some "newA2" ∧
    (saveTokens c9Prior c9NewWithRefresh).refresh = some "newR2" ∧
    (saveTokens c9Prior c9New).refresh = c9Prior.refresh := by
  have h1 := C9_relogin_overwrite c9Prior c9NewWithRefresh
  have h2 := C9_relogin_overwrite c9Prior c9New
  exact ⟨h1.1, h1.2.2.1 "newR2" rfl (by decide), h2.2.2.2 rfl⟩

/-- A store whose id token decodes to the empty object (no `sub`) and whose
access token is unexpired. -/
def authStoreNoSub : Store :=
  { access := some futureExpToken, id := some emptyPayloadToken, refresh := none }

/-- C10: an identity token whose payload is an object lacking `sub` still
yields a non-null user whose id is undefined, and a store with such an id
token and an unexpired access token loads to an authenticated session with
that user. -/
theorem C10_user_without_sub (t : String) (fs : List (String × Json))
    (hp : parseJwt t = some (Json.obj fs))
    (hsub : getFieldList fs "sub" = none) :
    getUserFromToken t =
      some { id := none, email := getFieldList fs "email",
             name := getFieldList fs "name" } ∧
    (initLoad demoCfg authStoreNoSub 0).2 =
      some { id := none, email := none, name := none } := by
  constructor
  · unfold getUserFromToken
    rw [hp]
    simp [Json.isFalsy, Json.getField, hsub]
  · rfl

/-- C10 witness at the concrete empty-payload identity token. -/
theorem C10_user_without_sub_witness :
    getUserFromToken emptyPayloadToken =
      some { id := none, email := none, name := none } ∧
    (initLoad demoCfg authStoreNoSub 0).2 =
      some { id := none, email := none, name := none } := by
  have h := C10_user_without_sub emptyPayloadToken [] rfl rfl
  exact ⟨h.1, h.2⟩

end Auth
